import Mathlib

/-!
Verification of the collection-and-enrichment pipeline of coletor_x.py.

The Python source is shallowly embedded: strings are lists of characters
(`Str`), the external collaborators (browser/selector results, yt-dlp,
ffprobe, Whisper, Tesseract, langdetect) are inputs supplied through
environment records, and every side effect the claims mention (the 5-second
retry back-off sleeps and the os.remove calls on downloaded media) is
recorded in an explicit event trace.  Machine-independent integers are ℤ/ℕ;
the floating-point values reachable in the code (engagement stats parsed
from digit-and-dot strings, langdetect probabilities) are modelled as ℚ,
which is exact on every value those code paths can produce.

Conventions used throughout:
* `pyXxx` helpers model the corresponding Python str/list primitives
  (all-occurrence replace, whitespace split, strip, lower, zfill, ...),
  restricted to ASCII case mapping, which covers every string the
  embedded code paths construct.
* Fallible library calls are modelled as `Option`/`Except` values.
* All recursion is structural (fuel-based where needed) so that every
  definition evaluates inside the kernel.
-/

namespace ColetorX

/-- Python strings, embedded as lists of characters. -/
abbrev Str := List Char

/-- Model of str.lower (ASCII case mapping, the only case the scraper needs). -/
def pyLower (s : Str) : Str := s.map Char.toLower

/-- Model of str.strip with no argument: drop whitespace at both ends. -/
def pyStrip (s : Str) : Str :=
  ((s.dropWhile Char.isWhitespace).reverse.dropWhile Char.isWhitespace).reverse

/-- Model of str.strip(c) for a single character argument: drop that character
at both ends. -/
def stripChars (c : Char) (s : Str) : Str :=
  ((s.dropWhile (fun x => x = c)).reverse.dropWhile (fun x => x = c)).reverse

/-- Boolean list-prefix test. -/
def isPrefixOfL : Str → Str → Bool
  | [], _ => true
  | _ :: _, [] => false
  | a :: s, b :: t => a = b && isPrefixOfL s t

/-- Model of the Python substring test `sub in s`. -/
def containsSub (sub : Str) : Str → Bool
  | [] => sub.isEmpty
  | c :: rest => isPrefixOfL sub (c :: rest) || containsSub sub rest

/-- Fuel-driven worker for `pySplitSub`. -/
def splitOnSubF (sep : Str) : Nat → Str → Str → List Str
  | 0, s, acc => [acc.reverse ++ s]
  | fuel + 1, s, acc =>
    match s with
    | [] => [acc.reverse]
    | c :: rest =>
      if sep ≠ [] && isPrefixOfL sep s then
        acc.reverse :: splitOnSubF sep fuel (s.drop sep.length) []
      else splitOnSubF sep fuel rest (c :: acc)

/-- Model of str.split(sep) for a non-empty separator string. -/
def pySplitSub (sep s : Str) : List Str := splitOnSubF sep (s.length + 1) s []

/-- Fuel-driven worker for `pyReplace`. -/
def replaceAllF (pat rep : Str) : Nat → Str → Str
  | 0, s => s
  | fuel + 1, s =>
    match s with
    | [] => []
    | c :: rest =>
      if pat ≠ [] && isPrefixOfL pat s then rep ++ replaceAllF pat rep fuel (s.drop pat.length)
      else c :: replaceAllF pat rep fuel rest

/-- Model of str.replace(pat, rep): replace every occurrence, for a
non-empty pattern. -/
def pyReplace (pat rep s : Str) : Str := replaceAllF pat rep (s.length + 1) s

/-- Model of str.split() with no argument: split on whitespace runs,
discarding empty pieces. -/
def pySplitWs (s : Str) : List Str :=
  (s.foldr
    (fun c acc =>
      if c.isWhitespace then [] :: acc
      else
        match acc with
        | [] => [[c]]
        | w :: ws => (c :: w) :: ws)
    []).filter (fun w => w ≠ [])

/-- Model of str.split(sep) for a single-character separator: keeps empty
pieces, exactly like Python. -/
def pySplitChar (sep : Char) (s : Str) : List Str :=
  s.foldr
    (fun c acc =>
      if c = sep then [] :: acc
      else
        match acc with
        | [] => [[c]]
        | w :: ws => (c :: w) :: ws)
    [[]]

/-- Model of str.zfill(w): left-pad with zeros to width w, keeping a leading
sign in place. -/
def zfill (w : Nat) (s : Str) : Str :=
  match s with
  | [] => List.replicate w '0'
  | c :: rest =>
    if c = '+' ∨ c = '-' then c :: (List.replicate (w - s.length) '0' ++ rest)
    else List.replicate (w - s.length) '0' ++ s

/-- ASCII decimal digit test (the reading of the regex digit class and of
the digit shapes float()/int() accept on this program's inputs). -/
def ehDigito (c : Char) : Bool := 48 ≤ c.toNat && c.toNat ≤ 57

/-- Numeric value of a list of decimal digit characters. -/
def digitsVal (cs : Str) : Nat := cs.foldl (fun a c => a * 10 + (c.toNat - 48)) 0

/-- Check for a non-empty all-digit string. -/
def allDigits (cs : Str) : Bool := cs ≠ [] && cs.all ehDigito

/-- Model of Python int(str) on the string shapes reachable in this program:
optional surrounding whitespace, an optional sign, then decimal digits. -/
def pyInt (s : Str) : Option Int :=
  let t := pyStrip s
  match t with
  | '-' :: rest => if allDigits rest then some (-(digitsVal rest : Int)) else none
  | '+' :: rest => if allDigits rest then some (digitsVal rest : Int) else none
  | _ => if allDigits t then some (digitsVal t : Int) else none

/-- Model of Python float(str) on the strings this program can feed it
(digits and dots only, after the regex cleanup): at most one dot and at
least one digit.  The value is kept exactly, as the pair
(mantissa, number of fraction digits), i.e. mantissa / 10 ^ fracLen; the
float round-trip of the code is exact on every claim-relevant value. -/
def parseFloatDec (s : Str) : Option (Nat × Nat) :=
  if s.all (fun c => ehDigito c || c = '.') then
    match pySplitChar '.' s with
    | [a] => if a ≠ [] then some (digitsVal a, 0) else none
    | [a, b] =>
      if a ++ b ≠ [] then some (digitsVal a * 10 ^ b.length + digitsVal b, b.length) else none
    | _ => none
  else none

/-- Index of the last dot in a name, if any. -/
def rfindDot (s : Str) : Option Nat :=
  match s.reverse.findIdx? (fun c => c = '.') with
  | some j => some (s.length - 1 - j)
  | none => none

/-- Model of pathlib suffix: the extension from the last dot on, empty when
the name has no dot, starts with its only dot, or ends in the dot. -/
def pathSuffix (name : Str) : Str :=
  match rfindDot name with
  | some i => if 0 < i ∧ i < name.length - 1 then name.drop i else []
  | none => []

/-- Decimal digit characters of a natural number (fuel-driven, structural). -/
def natToStrF : Nat → Nat → Str
  | 0, _ => []
  | fuel + 1, n =>
    if n < 10 then [Char.ofNat (48 + n)]
    else natToStrF fuel (n / 10) ++ [Char.ofNat (48 + n % 10)]

/-- Decimal representation of a natural number. -/
def natToStr (n : Nat) : Str := natToStrF (n + 1) n

/-- Left-pad a digit string with zeros to the given width. -/
def padZ (w : Nat) (s : Str) : Str := List.replicate (w - s.length) '0' ++ s

/- ===================== SHA-256 (hashlib.sha256) =====================
The pseudonymizer calls hashlib.sha256; the FIPS 180-4 compression function
is embedded here over ℕ with explicit reduction mod 2^32. -/

/-- The 32-bit modulus used by every SHA-256 word operation. -/
def w32 : Nat := 4294967296

/-- Rotate a 32-bit word right by n bits. -/
def rotr (n x : Nat) : Nat := ((x >>> n) ||| (x <<< (32 - n))) % w32

/-- SHA-256 choice function Ch(x,y,z). -/
def shaCh (x y z : Nat) : Nat := (x &&& y) ^^^ ((x ^^^ 4294967295) &&& z)

/-- SHA-256 majority function Maj(x,y,z). -/
def shaMaj (x y z : Nat) : Nat := (x &&& y) ^^^ (x &&& z) ^^^ (y &&& z)

/-- SHA-256 Σ0. -/
def bigS0 (x : Nat) : Nat := rotr 2 x ^^^ rotr 13 x ^^^ rotr 22 x

/-- SHA-256 Σ1. -/
def bigS1 (x : Nat) : Nat := rotr 6 x ^^^ rotr 11 x ^^^ rotr 25 x

/-- SHA-256 σ0. -/
def smallS0 (x : Nat) : Nat := rotr 7 x ^^^ rotr 18 x ^^^ (x >>> 3)

/-- SHA-256 σ1. -/
def smallS1 (x : Nat) : Nat := rotr 17 x ^^^ rotr 19 x ^^^ (x >>> 10)

/-- Round constants of the SHA-256 compression function (FIPS 180-4,
here in decimal). -/
def shaK : List Nat := [
  1116352408, 1899447441, 3049323471, 3921009573, 961987163,
  1508970993, 2453635748, 2870763221, 3624381080, 310598401,
  607225278, 1426881987, 1925078388, 2162078206, 2614888103,
  3248222580, 3835390401, 4022224774, 264347078, 604807628,
  770255983, 1249150122, 1555081692, 1996064986, 2554220882,
  2821834349, 2952996808, 3210313671, 3336571891, 3584528711,
  113926993, 338241895, 666307205, 773529912, 1294757372,
  1396182291, 1695183700, 1986661051, 2177026350, 2456956037,
  2730485921, 2820302411, 3259730800, 3345764771, 3516065817,
  3600352804, 4094571909, 275423344, 430227734, 506948616,
  659060556, 883997877, 958139571, 1322822218, 1537002063,
  1747873779, 1955562222, 2024104815, 2227730452, 2361852424,
  2428436474, 2756734187, 3204031479, 3329325298]

/-- The eight 32-bit working variables of the compression function. -/
structure ShaState where
  a : Nat
  b : Nat
  c : Nat
  d : Nat
  e : Nat
  f : Nat
  g : Nat
  h : Nat

/-- Extend the sixteen block words to the 64-entry message schedule. -/
def msgSchedule (w16 : List Nat) : List Nat :=
  (List.range' 16 48).foldl
    (fun ws t =>
      let v := (smallS1 (ws.getD (t - 2) 0) + ws.getD (t - 7) 0 + smallS0 (ws.getD (t - 15) 0) +
        ws.getD (t - 16) 0) % w32
      ws ++ [v]) w16

/-- One SHA-256 round. -/
def shaRound (ws : List Nat) (s : ShaState) (t : Nat) : ShaState :=
  let t1 := (s.h + bigS1 s.e + shaCh s.e s.f s.g + shaK.getD t 0 + ws.getD t 0) % w32
  let t2 := (bigS0 s.a + shaMaj s.a s.b s.c) % w32
  ⟨(t1 + t2) % w32, s.a, s.b, s.c, (s.d + t1) % w32, s.e, s.f, s.g⟩

/-- Big-endian packing of bytes into 32-bit words. -/
def bytesToWords : List Nat → List Nat
  | b0 :: b1 :: b2 :: b3 :: rest =>
    (b0 <<< 24 ||| b1 <<< 16 ||| b2 <<< 8 ||| b3) :: bytesToWords rest
  | _ => []

/-- Compress one 64-byte block into the running hash state. -/
def compress (H : ShaState) (block : List Nat) : ShaState :=
  let ws := msgSchedule (bytesToWords block)
  let s := (List.range 64).foldl (shaRound ws) H
  ⟨(H.a + s.a) % w32, (H.b + s.b) % w32, (H.c + s.c) % w32, (H.d + s.d) % w32,
   (H.e + s.e) % w32, (H.f + s.f) % w32, (H.g + s.g) % w32, (H.h + s.h) % w32⟩

/-- Split a byte list into 64-byte blocks (fuel-driven, structural). -/
def chunksF : Nat → List Nat → List (List Nat)
  | 0, _ => []
  | _, [] => []
  | fuel + 1, l => l.take 64 :: chunksF fuel (l.drop 64)

/-- SHA-256 padding: append 0x80, zeros up to 56 mod 64, then the bit length
as eight big-endian bytes. -/
def padMsg (msg : List Nat) : List Nat :=
  let L := msg.length
  let padLen := (119 - L % 64) % 64
  msg ++ [0x80] ++ List.replicate padLen 0 ++
    (List.range 8).map (fun i => ((8 * L) >>> (8 * (7 - i))) % 256)

/-- SHA-256 digest of a byte list, as eight 32-bit words. -/
def sha256words (msg : List Nat) : List Nat :=
  let padded := padMsg msg
  let s := (chunksF (padded.length / 64) padded).foldl compress
    ⟨1779033703, 3144134277, 1013904242, 2773480762, 1359893119, 2600822924, 528734635, 1541459225⟩
  [s.a, s.b, s.c, s.d, s.e, s.f, s.g, s.h]

/-- Lower-case hexadecimal digit for a value below 16. -/
def hexDigit (n : Nat) : Char := if n < 10 then Char.ofNat (48 + n) else Char.ofNat (87 + n)

/-- Eight lower-case hex characters of a 32-bit word. -/
def wordToHex (x : Nat) : Str :=
  (List.range 8).map (fun i => hexDigit ((x >>> (4 * (7 - i))) % 16))

/-- Model of hashlib hexdigest: the 64 lower-case hex characters of the
SHA-256 digest of a byte list. -/
def sha256hex (msg : List Nat) : Str := (sha256words msg).flatMap wordToHex

/-- UTF-8 bytes of one character (model of str.encode for a single char). -/
def utf8Char (c : Char) : List Nat :=
  let n := c.toNat
  if n < 0x80 then [n]
  else if n < 0x800 then [0xC0 ||| (n >>> 6), 0x80 ||| (n &&& 0x3F)]
  else if n < 0x10000 then
    [0xE0 ||| (n >>> 12), 0x80 ||| ((n >>> 6) &&& 0x3F), 0x80 ||| (n &&& 0x3F)]
  else
    [0xF0 ||| (n >>> 18), 0x80 ||| ((n >>> 12) &&& 0x3F), 0x80 ||| ((n >>> 6) &&& 0x3F),
     0x80 ||| (n &&& 0x3F)]

/-- Model of str.encode("utf-8"). -/
def utf8Encode (s : Str) : List Nat := s.flatMap utf8Char

/- ===================== Collector constants (lines 97-108, 122) ===================== -/

/-- Mirror front-end base URL (INSTANCIA, line 98). -/
def INSTANCIA : Str := "https://twiiit.com".data

/-- Fixed pseudonymization secret (SALT_LGPD, line 99). -/
def SALT_LGPD : Str := "dAurora_Salt".data

/-- Cap on listing items taken per search page (line 100). -/
def MAX_RESULTADOS_POR_BUSCA : Nat := 20

/-- Media retention policy: delete media after processing (line 104). -/
def DELETAR_MIDIA_APOS_COLETA : Bool := true

/- ===================== Pure helper functions ===================== -/

/-- Model of pseudonimizar_usuario (lines 141-142): the hex digest of the
SHA-256 hash of the UTF-8 bytes of username followed by the fixed salt. -/
def pseudonimizar_usuario (username : Str) : Str :=
  sha256hex (utf8Encode (username ++ SALT_LGPD))

/-- The character filter of the regex re.sub applied in parse_stat_value
(line 147): keep only digits, dot, k and m. -/
def statKeep (c : Char) : Bool := ehDigito c || c = '.' || c = 'k' || c = 'm'

/-- Line 145 of parse_stat_value: strip, then lower-case. -/
def statTexto (text : Str) : Str := pyLower (pyStrip text)

/-- Line 147 of parse_stat_value: the regex cleanup keeping only
digits/dot/k/m. -/
def statLimpo (t : Str) : Str := t.filter statKeep

/-- Lines 149-150: the multiplier chosen by the k/m suffix test (the k test
wins when both letters survive the cleanup, exactly as in the source). -/
def statMult (limpo : Str) : Nat :=
  if limpo.contains 'k' then 1000
  else if limpo.contains 'm' then 1000000 else 1

/-- Lines 149-150: removal of every k (or else every m) before the float
conversion. -/
def statFinal (limpo : Str) : Str :=
  if limpo.contains 'k' then limpo.filter (fun c => c ≠ 'k')
  else if limpo.contains 'm' then limpo.filter (fun c => c ≠ 'm')
  else limpo

/-- Model of parse_stat_value (lines 144-152): strip and lower-case, keep
only digits/dot/k/m, apply the k/m multiplier, truncate the float value to
an integer; every failure yields 0. -/
def parse_stat_value (text : Str) : ℤ :=
  let t := statTexto text
  if t = [] then 0
  else
    let text_limpo := statLimpo t
    match parseFloatDec (statFinal text_limpo) with
    | some md => ((md.1 * statMult text_limpo / 10 ^ md.2 : Nat) : ℤ)
    | none => 0

/-- Month-abbreviation table of converter_data_para_iso (line 158). -/
def MESES : List (Str × Str) :=
  [("Jan".data, "01".data), ("Feb".data, "02".data), ("Mar".data, "03".data),
   ("Apr".data, "04".data), ("May".data, "05".data), ("Jun".data, "06".data),
   ("Jul".data, "07".data), ("Aug".data, "08".data), ("Sep".data, "09".data),
   ("Oct".data, "10".data), ("Nov".data, "11".data), ("Dec".data, "12".data)]

/-- Leap-year rule used by datetime's day-of-month validation. -/
def ehBissexto (y : Int) : Bool := y % 4 = 0 && (y % 100 ≠ 0 || y % 400 = 0)

/-- Days in a month, as validated by the datetime constructor. -/
def diasNoMes (y m : Int) : Int :=
  if m = 2 then (if ehBissexto y then 29 else 28)
  else if m = 4 ∨ m = 6 ∨ m = 9 ∨ m = 11 then 30
  else 31

/-- Output format of strftime on line 165: zero-padded
YYYY-MM-DDTHH:MM:00Z with a literal seconds field of zero. -/
def formatIso (ano mes dia hora minuto : Nat) : Str :=
  padZ 4 (natToStr ano) ++ "-".data ++ padZ 2 (natToStr mes) ++ "-".data ++
  padZ 2 (natToStr dia) ++ "T".data ++ padZ 2 (natToStr hora) ++ ":".data ++
  padZ 2 (natToStr minuto) ++ ":00Z".data

/-- The try-block of converter_data_para_iso (lines 156-165): clean the
text, look up the month, split the fields, convert 12-hour to 24-hour time
and build the datetime; any failure along the way is none (the raised
exception). -/
def converterTry (data_texto : Str) : Option Str :=
  let data_limpa := pyStrip (pyReplace " UTC".data [] (pyReplace "· ".data [] data_texto))
  let partes := pySplitWs (pyReplace ",".data [] data_limpa)
  match partes[0]?, partes[1]?, partes[2]?, partes[3]?, partes[4]? with
  | some p0, some p1, some p2, some p3, some p4 =>
    match MESES.lookup p0 with
    | none => none
    | some mes_num =>
      let dia := zfill 2 p1
      let hm := pySplitChar ':' p3
      if hm.length = 2 then
        match pyInt (hm.getD 0 []), pyInt (hm.getD 1 []) with
        | some hora0, some minuto =>
          let hora :=
            if p4 = "PM".data ∧ hora0 ≠ 12 then hora0 + 12
            else if p4 = "AM".data ∧ hora0 = 12 then 0
            else hora0
          match pyInt p2, pyInt mes_num, pyInt dia with
          | some ano, some mesN, some diaN =>
            if 1 ≤ ano ∧ ano ≤ 9999 ∧ 1 ≤ mesN ∧ mesN ≤ 12 ∧ 1 ≤ diaN ∧
                diaN ≤ diasNoMes ano mesN ∧ 0 ≤ hora ∧ hora ≤ 23 ∧ 0 ≤ minuto ∧ minuto ≤ 59 then
              some (formatIso ano.toNat mesN.toNat diaN.toNat hora.toNat minuto.toNat)
            else none
          | _, _, _ => none
        | _, _ => none
      else none
  | _, _, _, _, _ => none

/-- Model of converter_data_para_iso (lines 154-166): empty input yields
None; otherwise the try-block result, falling back to the input text itself
when the try-block raises. -/
def converter_data_para_iso (data_texto : Str) : Option Str :=
  if data_texto = [] then none
  else
    match converterTry data_texto with
    | some r => some r
    | none => some data_texto

/-- One entry of the ranked language list returned by langdetect. -/
structure Deteccao where
  lang : Str
  prob : ℚ
deriving DecidableEq

/-- The 0.95 confidence threshold of line 171, as the exact rational 19/20
written as an explicit numerator/denominator pair so it evaluates inside
the kernel. -/
def LIMIAR_IDIOMA : ℚ := ⟨19, 20, by decide, by decide⟩

/-- Model of verificar_idioma_portugues (lines 168-173): the detector
result is supplied as input; a raised LangDetectException is the error
case.  Accepts only a non-empty ranking whose head is pt with probability
above 0.95. -/
def verificar_idioma_portugues (resultado : Except Unit (List Deteccao)) : Bool :=
  match resultado with
  | .error _ => false
  | .ok deteccoes =>
    match deteccoes with
    | [] => false
    | d :: _ => if d.lang = "pt".data ∧ d.prob > LIMIAR_IDIOMA then true else false

/- ===================== Media helpers (lines 187-262) ===================== -/

/-- Outcome of one yt-dlp subprocess invocation inside download_midia. -/
inductive TentativaResult where
  /-- subprocess.run returned normally; the field holds the first file the
  glob then finds, or none when the glob comes back empty. -/
  | ok (arquivo : Option Str)
  /-- subprocess.run raised CalledProcessError; the field is the captured
  stderr text. -/
  | procError (stderr : Str)
  /-- any other exception was raised by the attempt. -/
  | excecao

/-- External-world inputs of one download_midia call. -/
structure DownloadEnv where
  /-- a file already present for this post id in the destination folder
  (the glob on line 188), if any. -/
  existente : Option Str
  /-- outcome of the numbered attempt (1-based), for each attempt the loop
  could make. -/
  resultado : Nat → TentativaResult

/-- Observable result of a download_midia call: the returned pair plus the
number of subprocess attempts made and of 5-second back-off sleeps. -/
structure DownloadRun where
  sucesso : Bool
  caminho : Option Str
  tentativas : Nat
  esperas : Nat
deriving DecidableEq

/-- Retry condition of line 217: the stripped, lower-cased stderr contains
403 or forbidden. -/
def erroRetryavel (stderr : Str) : Bool :=
  let e := pyLower (pyStrip stderr)
  containsSub "403".data e || containsSub "forbidden".data e

/-- The for-loop of download_midia (lines 203-230), structurally recursive
on the remaining iterations.  A retry happens only for a CalledProcessError
whose stderr matches the 403/forbidden test and only while attempts remain;
every other failure returns immediately, and running out of iterations
returns failure (line 230). -/
def downloadLoop (res : Nat → TentativaResult) : Nat → Nat → DownloadRun
  | 0, _ => ⟨false, none, 0, 0⟩
  | fuel + 1, tentativa =>
    match res tentativa with
    | .ok (some f) => ⟨true, some f, 1, 0⟩
    | .ok none => ⟨false, none, 1, 0⟩
    | .excecao => ⟨false, none, 1, 0⟩
    | .procError stderr =>
      if erroRetryavel stderr then
        if tentativa < 3 then
          let r := downloadLoop res fuel (tentativa + 1)
          ⟨r.sucesso, r.caminho, r.tentativas + 1, r.esperas + 1⟩
        else ⟨false, none, 1, 0⟩
      else ⟨false, none, 1, 0⟩

/-- Model of download_midia (lines 187-230): an existing file is returned
at once with no attempt; otherwise up to three attempts run. -/
def download_midia (env : DownloadEnv) : DownloadRun :=
  match env.existente with
  | some f => ⟨true, some f, 0, 0⟩
  | none => downloadLoop env.resultado 3 1

/-- Classification used to state the retry policy: an attempt outcome is a
403/forbidden-signature CalledProcessError, the only outcome the loop
retries after. -/
def tentativa403 : TentativaResult → Bool
  | .procError stderr => erroRetryavel stderr
  | _ => false

/-- Classification used to state the retry policy: an attempt outcome on
which download_midia returns failure at once, with no further attempt — a
CalledProcessError without the 403/forbidden signature (line 224), any
other exception (line 227), or a normal subprocess exit whose glob finds no
file (line 213). -/
def falhaImediata : TentativaResult → Bool
  | .ok none => true
  | .ok (some _) => false
  | .procError stderr => ! erroRetryavel stderr
  | .excecao => true

/-- Model of transcrever_imagem_ocr (lines 232-239) applied to the raw OCR
engine outcome: non-empty raw text is stripped and returned, empty raw text
gives None, and an exception gives None. -/
def transcrever_imagem_ocr (resultado : Except Unit Str) : Option Str :=
  match resultado with
  | .ok texto => if texto ≠ [] then some (pyStrip texto) else none
  | .error _ => none

/-- Model of transcrever_video (lines 241-248) applied to the raw Whisper
outcome: success yields (True, stripped text); an exception yields
(False, None). -/
def transcrever_video (resultado : Except Unit Str) : Bool × Option Str :=
  match resultado with
  | .ok texto => (true, some (pyStrip texto))
  | .error _ => (false, none)

/-- Model of midia_tem_audio (lines 250-262) applied to the ffprobe
outcome for the downloaded file (which exists, having just been produced by
a successful download): true exactly when ffprobe ran and printed a
non-blank codec type; every failure is false. -/
def midia_tem_audio (resultado : Except Unit Str) : Bool :=
  match resultado with
  | .ok saida => decide (pyStrip saida ≠ [])
  | .error _ => false

/- ===================== Post extractor (lines 271-378) ===================== -/

/-- Image extensions routed to OCR (line 338). -/
def EXTENSOES_IMAGEM : List Str :=
  [".jpg".data, ".jpeg".data, ".png".data, ".webp".data]

/-- Video/container extensions routed to the audio check (line 341). -/
def EXTENSOES_VIDEO : List Str :=
  [".mp4".data, ".mov".data, ".avi".data, ".mkv".data, ".webm".data,
   ".unknown_video".data, ".m3u8".data]

/-- Everything the external world supplies for one listing item: the
selector lookups BeautifulSoup performs on the markup (lines 292-318) and
the outcomes of the media collaborators consulted while processing it. -/
structure ItemEnv where
  /-- href of the first anchor matching a[href*="/status/"], if present. -/
  href : Option Str
  /-- text of div.tweet-content, if the element is present (pre-strip). -/
  tweet_content : Option Str
  /-- ranked language list from detect_langs over the stripped text, or the
  raised LangDetectException. -/
  deteccao : Except Unit (List Deteccao)
  /-- text of a.username, if the element is present (before the strip of
  the at sign). -/
  username_el : Option Str
  /-- title attribute of the .tweet-date anchor, if present. -/
  tweet_date_title : Option Str
  /-- text of a.fullname, if present (pre-strip). -/
  fullname_el : Option Str
  /-- presence of the .icon-verified element. -/
  icon_verified : Bool
  /-- stat text around .icon-comment inside .tweet-stats, when both exist. -/
  comment_el : Option Str
  /-- stat text around .icon-retweet inside .tweet-stats, when both exist. -/
  retweet_el : Option Str
  /-- stat text around .icon-heart inside .tweet-stats, when both exist. -/
  heart_el : Option Str
  /-- presence of the video attachment container. -/
  video_tag : Bool
  /-- src attribute of the image attachment, when the img element exists
  and carries the attribute. -/
  imagem_src : Option Str
  /-- external-world inputs of the download_midia call for this item. -/
  dl : DownloadEnv
  /-- ffprobe outcome for the downloaded file. -/
  ffprobe : Except Unit Str
  /-- raw Whisper outcome for the downloaded file. -/
  whisper : Except Unit Str
  /-- raw Tesseract outcome for the downloaded file. -/
  ocr : Except Unit Str

/-- One attachment of the assembled record (lines 356-359). -/
structure Anexo where
  tipo_midia : Str
  url_midia : Str
  transcricao : Option Str
deriving DecidableEq

/-- The assembled post record (lines 361-366), restricted to the
fields the claims mention plus those derived from the extracted values. -/
structure Post where
  termo_busca : Str
  id_post : Str
  url : Str
  data_publicacao : Option Str
  id_pseudonimizado : Str
  nome_usuario : Str
  nome_exibicao : Str
  perfil_verificado : Bool
  contagem_respostas : ℤ
  contagem_reposts : ℤ
  contagem_curtidas : ℤ
  texto_principal : Str
  anexos : List Anexo
deriving DecidableEq

/-- Observable side effects of processing: the 5-second back-off sleeps of
download_midia and the os.remove calls on downloaded media files
(lines 346-347 and 353-354). -/
inductive Evento where
  | espera5s
  | removeu (arquivo : Str)
deriving DecidableEq

/-- Lines 292-294: the permalink path of the item, with any fragment
suffix cut off at the first hash character. -/
def postPathOf (env : ItemEnv) : Str :=
  let post_path := env.href.getD []
  if post_path.contains '#' then (pySplitChar '#' post_path).headD [] else post_path

/-- Line 296: the post identifier, i.e. the part of the permalink path
after the last /status/ separator; none when the path has no /status/. -/
def postIdOf (env : ItemEnv) : Option Str :=
  let post_path := postPathOf env
  if containsSub "/status/".data post_path then
    some ((pySplitSub "/status/".data post_path).getLastD [])
  else none

/-- Lines 314-325: at most one attachment is detected; a video container
takes precedence, and a relative image src is resolved against the
instance base URL.  The result is the (download URL, media kind) pair. -/
def detectar_anexo (env : ItemEnv) : Option (Str × Str) :=
  if env.video_tag then some (INSTANCIA ++ postPathOf env, "video".data)
  else
    match env.imagem_src with
    | some src =>
      if src ≠ [] then
        some ((if isPrefixOfL "/".data src then INSTANCIA ++ src else src), "imagem".data)
      else none
    | none => none

/-- Lines 327-359, the media block: download, route by extension, OCR or
audio-check-then-transcribe, delete per retention policy.  The first
component is none exactly on the two continue statements (download failure
on line 333, transcription failure on line 348); otherwise it is the
one-element attachment list.  The second component is the event trace. -/
def bloco_midia (env : ItemEnv) (url tipo : Str) : Option (List Anexo) × List Evento :=
  let dlr := download_midia env.dl
  let evDl := List.replicate dlr.esperas Evento.espera5s
  if dlr.sucesso = false then (none, evDl)
  else
    match dlr.caminho with
    | none => (some [⟨tipo, url, none⟩], evDl)
    | some caminho =>
      let extensao := pyLower (pathSuffix caminho)
      let evRem := if DELETAR_MIDIA_APOS_COLETA then [Evento.removeu caminho] else []
      if extensao ∈ EXTENSOES_IMAGEM then
        (some [⟨tipo, url, transcrever_imagem_ocr env.ocr⟩], evDl ++ evRem)
      else if extensao ∈ EXTENSOES_VIDEO then
        if midia_tem_audio env.ffprobe then
          let r := transcrever_video env.whisper
          if r.1 = false then (none, evDl ++ evRem)
          else (some [⟨tipo, url, r.2⟩], evDl ++ evRem)
        else (some [⟨tipo, url, none⟩], evDl ++ evRem)
      else (some [⟨tipo, url, none⟩], evDl ++ evRem)

/-- Lines 361-366: assemble the record from the extracted fields. -/
def montar_post (termo : Str) (env : ItemEnv) (pid texto username : Str)
    (anexos : List Anexo) : Post :=
  { termo_busca := termo
    id_post := pid
    url := "https://x.com/".data ++ username ++ "/status/".data ++ pid
    data_publicacao := converter_data_para_iso (env.tweet_date_title.getD [])
    id_pseudonimizado := pseudonimizar_usuario username
    nome_usuario := username
    nome_exibicao := (env.fullname_el.map pyStrip).getD []
    perfil_verificado := env.icon_verified
    contagem_respostas := match env.comment_el with | some t => parse_stat_value t | none => 0
    contagem_reposts := match env.retweet_el with | some t => parse_stat_value t | none => 0
    contagem_curtidas := match env.heart_el with | some t => parse_stat_value t | none => 0
    texto_principal := texto
    anexos := anexos }

/-- Lines 327-370, from the attachment decision to the emission point: no
attachment emits directly with an empty attachment list; an abandoned media
block leaves the ledger unchanged; an emitted post is appended together
with its identifier being added to the ledger (lines 368-369). -/
def emitir (termo : Str) (env : ItemEnv) (pid texto username : Str) (ledger : List Str) :
    Option Post × List Str × List Evento :=
  match detectar_anexo env with
  | none => (some (montar_post termo env pid texto username []), pid :: ledger, [])
  | some (url, tipo) =>
    match bloco_midia env url tipo with
    | (none, ev) => (none, ledger, ev)
    | (some anexos, ev) => (some (montar_post termo env pid texto username anexos), pid :: ledger, ev)

/-- Line 299: the main text of the item, stripped, defaulting to empty
when the element is missing. -/
def textoOf (env : ItemEnv) : Str := (env.tweet_content.map pyStrip).getD []

/-- Line 302: the author handle with at signs stripped, when the element
is present. -/
def usernameOf (env : ItemEnv) : Option Str := env.username_el.map (stripChars '@')

/-- Lines 292-370: process one listing item against the in-memory ledger.
Returns the emitted record (none on every continue path), the updated
ledger, and the event trace. -/
def processar_item (termo : Str) (env : ItemEnv) (ledger : List Str) :
    Option Post × List Str × List Evento :=
  match postIdOf env with
  | none => (none, ledger, [])
  | some pid =>
    if pid = [] ∨ pid ∈ ledger then (none, ledger, [])
    else if textoOf env = [] ∨ verificar_idioma_portugues env.deteccao = false then
      (none, ledger, [])
    else
      match usernameOf env with
      | none => (none, ledger, [])
      | some username =>
        if username = [] then (none, ledger, [])
        else emitir termo env pid (textoOf env) username ledger

/-- Lines 291-370: the inner for-loop over the listing items of one search
page, threading the ledger left to right and concatenating the emitted
records and event traces. -/
def processar_itens (termo : Str) (itens : List ItemEnv) (ledger : List Str) :
    List Post × List Str × List Evento :=
  match itens with
  | [] => ([], ledger, [])
  | env :: resto =>
    let r := processar_item termo env ledger
    let rs := processar_itens termo resto r.2.1
    (r.1.toList ++ rs.1, rs.2.1, r.2.2 ++ rs.2.2)

/-- One search term together with the listing items its results page
yields. -/
structure Busca where
  termo : Str
  itens : List ItemEnv

/-- Lines 271-378: one collection cycle over the configured search terms,
taking at most MAX_RESULTADOS_POR_BUSCA items per page (line 291).  The
per-term exception handlers (lines 372-373) only cut a term short; they
re-emit nothing, so the faithful total model processes each supplied item
exactly once. -/
def coletar_posts_com_selenium (buscas : List Busca) (ledger : List Str) :
    List Post × List Str × List Evento :=
  match buscas with
  | [] => ([], ledger, [])
  | b :: resto =>
    let r := processar_itens b.termo (b.itens.take MAX_RESULTADOS_POR_BUSCA) ledger
    let rs := coletar_posts_com_selenium resto r.2.1
    (r.1 ++ rs.1, rs.2.1, r.2.2 ++ rs.2.2)

/-- Whether an event trace contains a file removal. -/
def contemRemocao (evs : List Evento) : Bool :=
  evs.any (fun e => match e with | .removeu _ => true | _ => false)

/- ===================== Concrete test fixtures ===================== -/

/-- Concrete download environment: two attempts blocked with 403, then a
plain 404 failure — exercises retry exhaustion of the non-403 kind on the
last attempt. -/
def envC3 : DownloadEnv :=
  ⟨none, fun t => if t ≤ 2 then .procError "HTTP Error 403: Forbidden".data
                  else .procError "HTTP Error 404".data⟩

/-- Concrete item whose download always fails with an unexpected
exception: video post, Portuguese text, valid handle. -/
def envC2 : ItemEnv :=
  { href := some "/u/status/77".data, tweet_content := some "bom dia pessoal".data,
    deteccao := .ok [⟨"pt".data, ⟨99, 100, by decide, by decide⟩⟩],
    username_el := some "@joao".data, tweet_date_title := none, fullname_el := none,
    icon_verified := false, comment_el := none, retweet_el := none, heart_el := none,
    video_tag := true, imagem_src := none, dl := ⟨none, fun _ => .excecao⟩,
    ffprobe := .error (), whisper := .error (), ocr := .error () }

/-- Concrete item for the no-audio-video path: the download returns a
video file and the audio probe reports failure, hence no audio. -/
def envC8 : ItemEnv :=
  { href := some "/u/status/88".data, tweet_content := some "bom dia pessoal".data,
    deteccao := .ok [⟨"pt".data, ⟨99, 100, by decide, by decide⟩⟩],
    username_el := some "@maria".data, tweet_date_title := none, fullname_el := none,
    icon_verified := false, comment_el := none, retweet_el := none, heart_el := none,
    video_tag := true, imagem_src := none,
    dl := ⟨none, fun _ => .ok (some "88.mp4".data)⟩,
    ffprobe := .error (), whisper := .error (), ocr := .error () }

/-- Concrete download-failure abandon: one 403-blocked attempt (hence one
back-off sleep), then a plain failure; the trace shows the sleep and no
removal. -/
def envC9 : ItemEnv :=
  { href := some "/u/status/99".data, tweet_content := some "bom dia pessoal".data,
    deteccao := .ok [⟨"pt".data, ⟨99, 100, by decide, by decide⟩⟩],
    username_el := some "@ana".data, tweet_date_title := none, fullname_el := none,
    icon_verified := false, comment_el := none, retweet_el := none, heart_el := none,
    video_tag := true, imagem_src := none,
    dl := ⟨none, fun t => if t = 1 then .procError "HTTP Error 403: Forbidden".data
                          else .procError "HTTP Error 404".data⟩,
    ffprobe := .error (), whisper := .error (), ocr := .error () }

/-- One-term search page holding the no-audio-video item. -/
def buscaW : Busca := ⟨"termo".data, [envC8]⟩

/- ===================== Theorems ===================== -/


/- char lemmas copied context (they will live in the main file) -/

theorem char_toNat_ofNat_valid (n : Nat) (h : n.isValidChar) : (Char.ofNat n).toNat = n := by
  rw [Char.ofNat, dif_pos h]; rfl

theorem char_eq_of_toNat_eq {a b : Char} (h : a.toNat = b.toNat) : a = b := by
  rw [← Char.ofNat_toNat a, ← Char.ofNat_toNat b, h]

theorem toLower_toNat (c : Char) :
    c.toLower.toNat = if c.toNat ≥ 65 ∧ c.toNat ≤ 90 then c.toNat + 32 else c.toNat := by
  simp only [Char.toLower]
  split
  · next h => exact char_toNat_ofNat_valid _ (Or.inl (by omega))
  · rfl

theorem toLower_idem (c : Char) : c.toLower.toLower = c.toLower := by
  apply char_eq_of_toNat_eq
  by_cases h : c.toNat ≥ 65 ∧ c.toNat ≤ 90
  · have h1 : c.toLower.toNat = c.toNat + 32 := by rw [toLower_toNat, if_pos h]
    rw [toLower_toNat, h1, if_neg (by omega)]
  · have h1 : c.toLower.toNat = c.toNat := by rw [toLower_toNat, if_neg h]
    rw [toLower_toNat, h1, if_neg h]

theorem isWhitespace_toNat (c : Char) :
    c.isWhitespace =
      (decide (c.toNat = 32) || decide (c.toNat = 9) ||
       decide (c.toNat = 13) || decide (c.toNat = 10)) := by
  have e1 : (c = ' ') ↔ (c.toNat = 32) :=
    ⟨fun h => by rw [h]; rfl, fun h => char_eq_of_toNat_eq h⟩
  have e2 : (c = '\t') ↔ (c.toNat = 9) :=
    ⟨fun h => by rw [h]; rfl, fun h => char_eq_of_toNat_eq h⟩
  have e3 : (c = '\r') ↔ (c.toNat = 13) :=
    ⟨fun h => by rw [h]; rfl, fun h => char_eq_of_toNat_eq h⟩
  have e4 : (c = '\n') ↔ (c.toNat = 10) :=
    ⟨fun h => by rw [h]; rfl, fun h => char_eq_of_toNat_eq h⟩
  simp only [Char.isWhitespace]
  rw [decide_eq_decide.mpr e1, decide_eq_decide.mpr e2, decide_eq_decide.mpr e3,
    decide_eq_decide.mpr e4]

theorem toLower_isWhitespace (c : Char) : c.toLower.isWhitespace = c.isWhitespace := by
  rw [isWhitespace_toNat, isWhitespace_toNat, toLower_toNat]
  by_cases h : c.toNat ≥ 65 ∧ c.toNat ≤ 90
  · rw [if_pos h]
    apply Bool.eq_iff_iff.mpr
    simp only [Bool.or_eq_true, decide_eq_true_eq]
    omega
  · rw [if_neg h]

theorem pyLower_idem (s : Str) : pyLower (pyLower s) = pyLower s := by
  simp only [pyLower, List.map_map]
  exact List.map_congr_left (fun c _ => toLower_idem c)

theorem pyStrip_pyLower (s : Str) : pyStrip (pyLower s) = pyLower (pyStrip s) := by
  have hP : (Char.isWhitespace ∘ Char.toLower) = Char.isWhitespace :=
    funext toLower_isWhitespace
  simp only [pyStrip, pyLower]
  rw [List.dropWhile_map, hP, ← List.map_reverse, List.dropWhile_map, hP, ← List.map_reverse]

/- C5 support -/

theorem statKeep_not_ws (c : Char) (h : statKeep c = true) : c.isWhitespace = false := by
  simp only [statKeep, Bool.or_eq_true] at h
  rcases h with ((hd | he) | he) | he
  · rw [isWhitespace_toNat]
    simp only [ehDigito, Bool.and_eq_true, decide_eq_true_eq] at hd
    simp only [Bool.or_eq_false_iff, decide_eq_false_iff_not]
    omega
  · rw [decide_eq_true_eq] at he; subst he; decide
  · rw [decide_eq_true_eq] at he; subst he; decide
  · rw [decide_eq_true_eq] at he; subst he; decide

theorem dropWhile_false {p : Char → Bool} (l : Str) (h : ∀ c ∈ l, p c = false) :
    l.dropWhile p = l := by
  cases l with
  | nil => rfl
  | cons a t => simp [List.dropWhile_cons, h a (by simp)]

theorem pyStrip_no_ws (l : Str) (h : ∀ c ∈ l, c.isWhitespace = false) : pyStrip l = l := by
  unfold pyStrip
  rw [dropWhile_false l h, dropWhile_false _ (fun c hc => h c (List.mem_reverse.mp hc)),
    List.reverse_reverse]

/- C5 main pieces -/

theorem statTexto_pyLower (s : Str) : statTexto (pyLower s) = statTexto s := by
  unfold statTexto
  rw [pyStrip_pyLower, pyLower_idem]

theorem pyLower_no_upper (l : Str) (h : ∀ c ∈ l, c.toLower = c) : pyLower l = l := by
  unfold pyLower
  rw [List.map_congr_left h]
  simp

theorem statTexto_statLimpo (s : Str) :
    statTexto (statLimpo (statTexto s)) = statLimpo (statTexto s) := by
  have hmem : ∀ c ∈ statLimpo (statTexto s), statKeep c = true := by
    intro c hc
    exact (List.mem_filter.mp hc).2
  have hlow : ∀ c ∈ statLimpo (statTexto s), c.toLower = c := by
    intro c hc
    have hc2 : c ∈ statTexto s := (List.mem_filter.mp hc).1
    obtain ⟨d, _, rfl⟩ := List.mem_map.mp hc2
    exact toLower_idem d
  calc statTexto (statLimpo (statTexto s))
      = pyLower (pyStrip (statLimpo (statTexto s))) := rfl
    _ = pyLower (statLimpo (statTexto s)) := by
        rw [pyStrip_no_ws _ (fun c hc => statKeep_not_ws c (hmem c hc))]
    _ = statLimpo (statTexto s) := pyLower_no_upper _ hlow

theorem statLimpo_idem (l : Str) : statLimpo (statLimpo l) = statLimpo l := by
  unfold statLimpo
  rw [List.filter_filter]
  exact List.filter_congr (fun c _ => by rw [Bool.and_self])

/-- C5: the engagement-stat normalizer at its documented values, its case
insensitivity, its dependence only on the kept digit/dot/k/m characters,
and its zero fallback on parse failure. -/
theorem C5_parse_stat (s : Str) :
    parse_stat_value "1.5K".data = 1500 ∧
    parse_stat_value "2M".data = 2000000 ∧
    parse_stat_value [] = 0 ∧
    parse_stat_value "junk".data = 0 ∧
    parse_stat_value (pyLower s) = parse_stat_value s ∧
    parse_stat_value (statLimpo (statTexto s)) = parse_stat_value s ∧
    (parseFloatDec (statFinal (statLimpo (statTexto s))) = none → parse_stat_value s = 0) := by
  refine ⟨by decide, by decide, by decide, by decide, ?_, ?_, ?_⟩
  · unfold parse_stat_value
    rw [statTexto_pyLower]
  · by_cases ht : statTexto s = []
    · have h0 : statLimpo (statTexto s) = [] := by rw [ht]; rfl
      conv_lhs => rw [h0]
      have h1 : parse_stat_value [] = 0 := by decide
      rw [h1]
      simp only [parse_stat_value]
      rw [if_pos ht]
    · by_cases hu : statLimpo (statTexto s) = []
      · conv_lhs => rw [hu]
        have h1 : parse_stat_value [] = 0 := by decide
        rw [h1]
        simp only [parse_stat_value]
        rw [if_neg ht, hu]
        rfl
      · simp only [parse_stat_value]
        rw [statTexto_statLimpo, if_neg hu, if_neg ht, statLimpo_idem]
  · intro hf
    simp only [parse_stat_value]
    by_cases ht : statTexto s = []
    · rw [if_pos ht]
    · rw [if_neg ht, hf]

theorem C5_parse_stat_witness : parse_stat_value "xyz".data = 0 :=
  (C5_parse_stat "xyz".data).2.2.2.2.2.2 (by decide)

/- C4 / C10 -/

/-- C4: the date normalizer maps the documented example to the documented
ISO form, and every input on which the try-block fails comes back
unchanged. -/
theorem C4_converter_data (s : Str) :
    converter_data_para_iso "Jan 5, 2024 · 3:45 PM UTC".data =
      some "2024-01-05T15:45:00Z".data ∧
    (s ≠ [] → converterTry s = none → converter_data_para_iso s = some s) := by
  refine ⟨by decide, fun h1 h2 => ?_⟩
  rw [converter_data_para_iso, if_neg h1, h2]

theorem C4_converter_data_witness :
    converter_data_para_iso "garbage".data = some "garbage".data :=
  (C4_converter_data "garbage".data).2 (by decide) (by decide)

/-- C10: the empty input short-circuits to None before the fallback. -/
theorem C10_empty_input :
    converter_data_para_iso [] = none ∧ converter_data_para_iso [] ≠ some [] := by
  decide

/- C6 -/

theorem sha256hex_length (msg : List Nat) : (sha256hex msg).length = 64 := by
  simp [sha256hex, sha256words, wordToHex]

set_option maxRecDepth 40000 in
/-- C6: the pseudonymizer is the SHA-256 hex digest of handle ++ salt,
deterministic, and the embedded SHA-256 matches the FIPS 180-4 test
vector. -/
theorem C6_pseudonimizar (h₁ h₂ : Str) :
    pseudonimizar_usuario h₁ = sha256hex (utf8Encode (h₁ ++ SALT_LGPD)) ∧
    (h₁ = h₂ → pseudonimizar_usuario h₁ = pseudonimizar_usuario h₂) ∧
    (pseudonimizar_usuario h₁).length = 64 ∧
    sha256hex (utf8Encode "abc".data) =
      "ba7816bf8f01cfea414140de5dae2223b00361a396177a9cb410ff61f20015ad".data := by
  refine ⟨rfl, fun h => by rw [h], sha256hex_length _, ?_⟩
  decide

set_option maxRecDepth 40000 in
theorem C6_pseudonimizar_witness :
    pseudonimizar_usuario "joao123".data = pseudonimizar_usuario "joao123".data ∧
    pseudonimizar_usuario "joao123".data =
      "bf94b5c868ed2c63f7899e520c8cc67656553996ed319d9e1c68ecbdbdec9b3f".data :=
  ⟨(C6_pseudonimizar "joao123".data "joao123".data).2.1 rfl, by decide⟩

/- C7 -/

/-- C7: the language filter accepts exactly a non-error, non-empty ranking
headed by pt with confidence strictly above the 0.95 threshold. -/
theorem C7_idioma (resultado : Except Unit (List Deteccao)) :
    (verificar_idioma_portugues resultado = true ↔
      ∃ d resto, resultado = Except.ok (d :: resto) ∧
        d.lang = "pt".data ∧ d.prob > LIMIAR_IDIOMA) ∧
    LIMIAR_IDIOMA = 0.95 := by
  constructor
  · cases resultado with
    | error e => simp [verificar_idioma_portugues]
    | ok l =>
      cases l with
      | nil => simp [verificar_idioma_portugues]
      | cons d resto =>
        simp only [verificar_idioma_portugues]
        split
        · next h => simp_all
        · next h =>
          simp only [Bool.false_eq_true, false_iff]
          rintro ⟨d', r', heq, hl, hp⟩
          rw [Except.ok.injEq, List.cons.injEq] at heq
          exact h ⟨heq.1 ▸ hl, heq.1 ▸ hp⟩
  · show Rat.mk' 19 20 _ _ = _
    rw [Rat.mk'_eq_divInt, Rat.divInt_eq_div]
    norm_num



theorem montar_post_id (t : Str) (env : ItemEnv) (pid texto username : Str) (ax : List Anexo) :
    (montar_post t env pid texto username ax).id_post = pid := rfl

theorem emitir_spec (t : Str) (env : ItemEnv) (pid texto username : Str) (l : List Str) :
    ((emitir t env pid texto username l).1 = none ∧
      (emitir t env pid texto username l).2.1 = l) ∨
    (∃ p, (emitir t env pid texto username l).1 = some p ∧ p.id_post = pid ∧
      (emitir t env pid texto username l).2.1 = pid :: l) := by
  unfold emitir
  split
  · right
    exact ⟨_, rfl, rfl, rfl⟩
  · split
    · left
      exact ⟨rfl, rfl⟩
    · right
      exact ⟨_, rfl, rfl, rfl⟩

theorem processar_item_spec (t : Str) (env : ItemEnv) (l : List Str) :
    ((processar_item t env l).1 = none ∧ (processar_item t env l).2.1 = l) ∨
    (∃ p, (processar_item t env l).1 = some p ∧ p.id_post ∉ l ∧
      (processar_item t env l).2.1 = p.id_post :: l) := by
  unfold processar_item
  split
  · left; exact ⟨rfl, rfl⟩
  · next pid _ =>
    split
    · left; exact ⟨rfl, rfl⟩
    · next hmem =>
      split
      · left; exact ⟨rfl, rfl⟩
      · split
        · left; exact ⟨rfl, rfl⟩
        · next username _ =>
          split
          · left; exact ⟨rfl, rfl⟩
          · rcases emitir_spec t env pid (textoOf env) username l with ⟨h1, h2⟩ |
              ⟨p, h1, hp, h2⟩
            · left; exact ⟨h1, h2⟩
            · right
              refine ⟨p, h1, ?_, by rw [h2, hp]⟩
              rw [hp]
              intro hc
              exact hmem (Or.inr hc)

theorem processar_itens_spec (t : Str) (itens : List ItemEnv) (l : List Str) :
    (∀ p ∈ (processar_itens t itens l).1, p.id_post ∉ l) ∧
    (∀ p ∈ (processar_itens t itens l).1,
      p.id_post ∈ (processar_itens t itens l).2.1) ∧
    ((processar_itens t itens l).1.map Post.id_post).Nodup ∧
    (∀ x ∈ l, x ∈ (processar_itens t itens l).2.1) := by
  induction itens generalizing l with
  | nil => simp [processar_itens]
  | cons env resto ih =>
    simp only [processar_itens]
    rcases processar_item_spec t env l with ⟨h1, h2⟩ | ⟨p, h1, hpmem, h2⟩
    · rw [h1, h2]
      obtain ⟨k1, k2, k3, k4⟩ := ih l
      exact ⟨fun q hq => k1 q (by simpa using hq),
        fun q hq => k2 q (by simpa using hq), by simpa using k3, k4⟩
    · rw [h1, h2]
      obtain ⟨k1, k2, k3, k4⟩ := ih (p.id_post :: l)
      refine ⟨?_, ?_, ?_, ?_⟩
      · intro q hq
        rcases List.mem_cons.mp (by simpa using hq) with rfl | hq2
        · exact hpmem
        · intro hc
          exact k1 q hq2 (List.mem_cons_of_mem _ hc)
      · intro q hq
        rcases List.mem_cons.mp (by simpa using hq) with rfl | hq2
        · exact k4 q.id_post (List.mem_cons_self _ _)
        · exact k2 q hq2
      · simp only [Option.toList_some, List.cons_append, List.nil_append, List.map_cons,
          List.nodup_cons]
        refine ⟨?_, k3⟩
        intro hc
        obtain ⟨q, hq, hqid⟩ := List.mem_map.mp hc
        exact k1 q hq (hqid ▸ List.mem_cons_self _ _)
      · intro x hx
        exact k4 x (List.mem_cons_of_mem _ hx)

theorem coletar_spec (buscas : List Busca) (l : List Str) :
    (∀ p ∈ (coletar_posts_com_selenium buscas l).1, p.id_post ∉ l) ∧
    (∀ p ∈ (coletar_posts_com_selenium buscas l).1,
      p.id_post ∈ (coletar_posts_com_selenium buscas l).2.1) ∧
    ((coletar_posts_com_selenium buscas l).1.map Post.id_post).Nodup ∧
    (∀ x ∈ l, x ∈ (coletar_posts_com_selenium buscas l).2.1) := by
  induction buscas generalizing l with
  | nil => simp [coletar_posts_com_selenium]
  | cons b resto ih =>
    simp only [coletar_posts_com_selenium]
    obtain ⟨g1, g2, g3, g4⟩ :=
      processar_itens_spec b.termo (b.itens.take MAX_RESULTADOS_POR_BUSCA) l
    obtain ⟨k1, k2, k3, k4⟩ :=
      ih (processar_itens b.termo (b.itens.take MAX_RESULTADOS_POR_BUSCA) l).2.1
    refine ⟨?_, ?_, ?_, ?_⟩
    · intro q hq
      rcases List.mem_append.mp hq with hq1 | hq2
      · exact g1 q hq1
      · intro hc
        exact k1 q hq2 (g4 _ hc)
    · intro q hq
      rcases List.mem_append.mp hq with hq1 | hq2
      · exact k4 _ (g2 q hq1)
      · exact k2 q hq2
    · rw [List.map_append]
      rw [List.nodup_append]
      refine ⟨g3, k3, ?_⟩
      intro a ha hb
      obtain ⟨q, hq, hqid⟩ := List.mem_map.mp ha
      obtain ⟨q2, hq2, hq2id⟩ := List.mem_map.mp hb
      exact k1 q2 hq2 (hq2id ▸ hqid ▸ g2 q hq)
    · intro x hx
      exact k4 x (g4 x hx)

/-- C1: within a cycle and across cycles, a post identifier already in the
ledger is never re-emitted, every emitted identifier is in the ledger
afterwards, emitted identifiers are pairwise distinct, ledger entries are
preserved, and a second cycle started from the resulting ledger can never
repeat an identifier of the first. -/
theorem C1_dedup_ids (buscas buscas2 : List Busca) (ledger : List Str) :
    (∀ p ∈ (coletar_posts_com_selenium buscas ledger).1, p.id_post ∉ ledger) ∧
    (∀ p ∈ (coletar_posts_com_selenium buscas ledger).1,
      p.id_post ∈ (coletar_posts_com_selenium buscas ledger).2.1) ∧
    ((coletar_posts_com_selenium buscas ledger).1.map Post.id_post).Nodup ∧
    (∀ x ∈ ledger, x ∈ (coletar_posts_com_selenium buscas ledger).2.1) ∧
    (∀ p ∈ (coletar_posts_com_selenium buscas2
        (coletar_posts_com_selenium buscas ledger).2.1).1,
      ∀ q ∈ (coletar_posts_com_selenium buscas ledger).1, p.id_post ≠ q.id_post) := by
  obtain ⟨g1, g2, g3, g4⟩ := coletar_spec buscas ledger
  obtain ⟨k1, k2, k3, k4⟩ :=
    coletar_spec buscas2 (coletar_posts_com_selenium buscas ledger).2.1
  refine ⟨g1, g2, g3, g4, ?_⟩
  intro p hp q hq hc
  exact k1 p hp (hc ▸ g2 q hq)

theorem C1_dedup_ids_witness :
    ("77".data : Str) ∈ (coletar_posts_com_selenium [buscaW] ["77".data]).2.1 :=
  (C1_dedup_ids [buscaW] [] ["77".data]).2.2.2.1 "77".data (by decide)



theorem exts_disjoint : ∀ x ∈ EXTENSOES_VIDEO, x ∉ EXTENSOES_IMAGEM := by decide

theorem bloco_midia_download_falhou (env : ItemEnv) (url tipo : Str)
    (h : (download_midia env.dl).sucesso = false) :
    bloco_midia env url tipo =
      (none, List.replicate (download_midia env.dl).esperas Evento.espera5s) := by
  simp [bloco_midia, h]

theorem bloco_midia_transcricao_falhou (env : ItemEnv) (url tipo caminho : Str)
    (hs : (download_midia env.dl).sucesso = true)
    (hc : (download_midia env.dl).caminho = some caminho)
    (hext : pyLower (pathSuffix caminho) ∈ EXTENSOES_VIDEO)
    (haud : midia_tem_audio env.ffprobe = true)
    (htr : (transcrever_video env.whisper).1 = false) :
    (bloco_midia env url tipo).1 = none := by
  have himg : pyLower (pathSuffix caminho) ∉ EXTENSOES_IMAGEM := exts_disjoint _ hext
  simp [bloco_midia, hs, hc, himg, hext, haud, htr]

/-- C2: when the item has an attachment and its download fails, or its
video transcription fails, the item is abandoned: nothing is emitted and
the ledger is left unchanged, so the identifier stays eligible. -/
theorem C2_abandono (t : Str) (env : ItemEnv) (l : List Str)
    (hatt : detectar_anexo env ≠ none)
    (hfail : (download_midia env.dl).sucesso = false ∨
      ((download_midia env.dl).sucesso = true ∧
        ∃ caminho, (download_midia env.dl).caminho = some caminho ∧
          pyLower (pathSuffix caminho) ∈ EXTENSOES_VIDEO ∧
          midia_tem_audio env.ffprobe = true ∧
          (transcrever_video env.whisper).1 = false)) :
    (processar_item t env l).1 = none ∧ (processar_item t env l).2.1 = l := by
  have hbloco : ∀ url tipo, (bloco_midia env url tipo).1 = none := by
    intro url tipo
    rcases hfail with h | ⟨hs, caminho, hc, hext, haud, htr⟩
    · rw [bloco_midia_download_falhou env url tipo h]
    · exact bloco_midia_transcricao_falhou env url tipo caminho hs hc hext haud htr
  unfold processar_item
  split
  · exact ⟨rfl, rfl⟩
  · split
    · exact ⟨rfl, rfl⟩
    · split
      · exact ⟨rfl, rfl⟩
      · split
        · exact ⟨rfl, rfl⟩
        · split
          · exact ⟨rfl, rfl⟩
          · unfold emitir
            split
            · next heq => exact absurd heq hatt
            · next url tipo heq =>
              split
              · exact ⟨rfl, rfl⟩
              · next ax ev heq2 =>
                have := hbloco url tipo
                rw [heq2] at this
                exact absurd this (by simp)

theorem C2_abandono_witness :
    (processar_item "t".data envC2 ["5".data]).1 = none ∧
    (processar_item "t".data envC2 ["5".data]).2.1 = ["5".data] :=
  C2_abandono "t".data envC2 ["5".data] (by decide) (Or.inl (by decide))

/-- C8: a successfully downloaded video attachment with no audio stream is
kept, with a null extracted-text field, and the post is emitted with its
identifier recorded. -/
theorem C8_video_sem_audio (t : Str) (env : ItemEnv) (l : List Str) (pid caminho : Str)
    (hid : postIdOf env = some pid)
    (hpid : ¬(pid = [] ∨ pid ∈ l))
    (htxt : ¬(textoOf env = [] ∨ verificar_idioma_portugues env.deteccao = false))
    (huser : ∃ username, usernameOf env = some username ∧ ¬ username = [])
    (hvid : env.video_tag = true)
    (hs : (download_midia env.dl).sucesso = true)
    (hc : (download_midia env.dl).caminho = some caminho)
    (hext : pyLower (pathSuffix caminho) ∈ EXTENSOES_VIDEO)
    (haud : midia_tem_audio env.ffprobe = false) :
    ∃ p, (processar_item t env l).1 = some p ∧
      p.anexos = [⟨"video".data, INSTANCIA ++ postPathOf env, none⟩] ∧
      p.id_post = pid ∧
      (processar_item t env l).2.1 = pid :: l := by
  obtain ⟨username, hun, hune⟩ := huser
  have himg : pyLower (pathSuffix caminho) ∉ EXTENSOES_IMAGEM := exts_disjoint _ hext
  have hdet : detectar_anexo env = some (INSTANCIA ++ postPathOf env, "video".data) := by
    simp [detectar_anexo, hvid]
  have hbloco : bloco_midia env (INSTANCIA ++ postPathOf env) "video".data =
      (some [⟨"video".data, INSTANCIA ++ postPathOf env, none⟩],
        List.replicate (download_midia env.dl).esperas Evento.espera5s ++
          [Evento.removeu caminho]) := by
    simp [bloco_midia, hs, hc, himg, hext, haud, DELETAR_MIDIA_APOS_COLETA]
  simp only [processar_item, hid, if_neg hpid, if_neg htxt, hun, if_neg hune, emitir, hdet,
    hbloco]
  exact ⟨montar_post t env pid (textoOf env) username
    [⟨"video".data, INSTANCIA ++ postPathOf env, none⟩], rfl, rfl, rfl, trivial⟩

theorem C8_video_sem_audio_witness :
    ∃ p, (processar_item "t".data envC8 []).1 = some p ∧
      p.anexos = [⟨"video".data, INSTANCIA ++ postPathOf envC8, none⟩] ∧
      p.id_post = "88".data ∧
      (processar_item "t".data envC8 []).2.1 = ["88".data] :=
  C8_video_sem_audio "t".data envC8 [] "88".data "88.mp4".data (by decide) (by decide)
    (by decide) ⟨"maria".data, by decide, by decide⟩ (by decide) (by decide) (by decide)
    (by decide) (by decide)

/- C9 -/

theorem contemRemocao_replicate (n : Nat) :
    contemRemocao (List.replicate n Evento.espera5s) = false := by
  induction n with
  | zero => rfl
  | succ n ih => simp [contemRemocao, List.replicate_succ] at ih ⊢

/-- C9 (amended): on the download-failure abandon path no file is removed
at all, while a successful download always gets the retention-policy
removal of its media file. -/
theorem C9_remocoes :
    (∀ (t : Str) (env : ItemEnv) (l : List Str),
      (download_midia env.dl).sucesso = false →
      contemRemocao (processar_item t env l).2.2 = false) ∧
    (∀ (env : ItemEnv) (url tipo caminho : Str),
      (download_midia env.dl).sucesso = true →
      (download_midia env.dl).caminho = some caminho →
      Evento.removeu caminho ∈ (bloco_midia env url tipo).2) := by
  constructor
  · intro t env l h
    unfold processar_item
    split
    · rfl
    · split
      · rfl
      · split
        · rfl
        · split
          · rfl
          · split
            · rfl
            · unfold emitir
              split
              · rfl
              · next url tipo heq =>
                rw [bloco_midia_download_falhou env url tipo h]
                exact contemRemocao_replicate _
  · intro env url tipo caminho hs hc
    simp only [bloco_midia, hs, hc, DELETAR_MIDIA_APOS_COLETA]
    split_ifs <;> simp_all

theorem C9_counterexample :
    detectar_anexo envC9 ≠ none ∧
    (download_midia envC9.dl).sucesso = false ∧
    (processar_item "t".data envC9 []).1 = none ∧
    (processar_item "t".data envC9 []).2.2 = [Evento.espera5s] ∧
    contemRemocao (processar_item "t".data envC9 []).2.2 = false := by
  decide

theorem C9_remocoes_witness :
    contemRemocao (processar_item "t".data envC9 []).2.2 = false :=
  C9_remocoes.1 "t".data envC9 [] (by decide)



/-- C3: at most 3 attempts, a 5-second sleep exactly before each retry,
retries happen only after a 403/forbidden-signature failure, any other
failure returns immediately, and exhausting the attempts returns failure. -/
theorem C3_download_retry (env : DownloadEnv) :
    (download_midia env).tentativas ≤ 3 ∧
    (download_midia env).esperas = (download_midia env).tentativas - 1 ∧
    (env.existente = none →
      ((2 ≤ (download_midia env).tentativas → tentativa403 (env.resultado 1) = true) ∧
       (3 ≤ (download_midia env).tentativas → tentativa403 (env.resultado 2) = true) ∧
       (falhaImediata (env.resultado 1) = true →
         download_midia env = ⟨false, none, 1, 0⟩) ∧
       (tentativa403 (env.resultado 1) = true → falhaImediata (env.resultado 2) = true →
         download_midia env = ⟨false, none, 2, 1⟩) ∧
       (tentativa403 (env.resultado 1) = true → tentativa403 (env.resultado 2) = true →
         falhaImediata (env.resultado 3) = true →
         download_midia env = ⟨false, none, 3, 2⟩) ∧
       (tentativa403 (env.resultado 1) = true → tentativa403 (env.resultado 2) = true →
         tentativa403 (env.resultado 3) = true →
         download_midia env = ⟨false, none, 3, 2⟩))) := by
  rcases henv : env.existente with _ | f
  · simp only [download_midia, henv]
    rcases h1 : env.resultado 1 with a1 | st1 | _
    · rcases a1 with _ | f1 <;>
        simp_all [downloadLoop, tentativa403, falhaImediata]
    · by_cases e1 : erroRetryavel st1
      · rcases h2 : env.resultado 2 with a2 | st2 | _
        · rcases a2 with _ | f2 <;>
            simp_all [downloadLoop, tentativa403, falhaImediata]
        · by_cases e2 : erroRetryavel st2
          · rcases h3 : env.resultado 3 with a3 | st3 | _
            · rcases a3 with _ | f3 <;>
                simp_all [downloadLoop, tentativa403, falhaImediata]
            · by_cases e3 : erroRetryavel st3 <;>
                simp_all [downloadLoop, tentativa403, falhaImediata]
            · simp_all [downloadLoop, tentativa403, falhaImediata]
          · simp_all [downloadLoop, tentativa403, falhaImediata]
        · simp_all [downloadLoop, tentativa403, falhaImediata]
      · simp_all [downloadLoop, tentativa403, falhaImediata]
    · simp_all [downloadLoop, tentativa403, falhaImediata]
  · simp [download_midia, henv]

theorem C3_download_retry_witness :
    download_midia envC3 = ⟨false, none, 3, 2⟩ ∧ envC3.existente = none :=
  ⟨((C3_download_retry envC3).2.2 rfl).2.2.2.2.1 (by decide) (by decide) (by decide), rfl⟩


end ColetorX
